import Mathlib

/-!
Shallow embedding of the Flask + MySQL business-review backend (src/main.py).

Tables are modelled as Lean lists, one record per row; the auto-increment
counters of the two tables are carried explicitly.  JSON dictionaries are
modelled as insertion-ordered association lists over a small JSON value type.
Python string splitting (str.split with a one-character separator) is modelled
by an executable function with the same semantics.  SQLAlchemy result access
via one_or_none, which raises MultipleResultsFound on two or more rows, is
modelled with an Except type; an exception escaping a handler is a distinct
outcome from a returned response.
-/

/-- JSON values appearing in request and response dictionaries. -/
inductive JVal where
  | num (n : Int)
  | str (s : String)
  | null
deriving Repr, DecidableEq

/-- A Python dict with string keys, modelled as an insertion-ordered
association list (Python dicts preserve insertion order). -/
abbrev JDict := List (String × JVal)

/-- Lookup in a dict, as Python d[k] / d.get(k). -/
def dictGet (d : JDict) (k : String) : Option JVal :=
  (d.find? (fun kv => kv.1 == k)).map (fun kv => kv.2)

/-- Assignment d[k] = v: overwrite in place when the key exists, else append. -/
def dictSet (d : JDict) (k : String) (v : JVal) : JDict :=
  if d.any (fun kv => kv.1 == k) then
    d.map (fun kv => if kv.1 == k then (k, v) else kv)
  else
    d ++ [(k, v)]

/-- Deletion del d[k]. -/
def dictDel (d : JDict) (k : String) : JDict :=
  d.filter (fun kv => kv.1 != k)

/-- Python str.split with a one-character separator, on the character list. -/
def pySplitChar (sep : Char) : List Char → List (List Char)
  | [] => [[]]
  | c :: cs =>
    let r := pySplitChar sep cs
    if c = sep then [] :: r
    else
      match r with
      | [] => [[c]]
      | g :: gs => (c :: g) :: gs

/-- Python str.split with a one-character separator. -/
def pySplit (s : String) (sep : Char) : List String :=
  (pySplitChar sep s.data).map (fun cs => String.mk cs)

/-- Is sub an initial segment of l. -/
def isPreOf : List Char → List Char → Bool
  | [], _ => true
  | _ :: _, [] => false
  | a :: as, b :: bs => a == b && isPreOf as bs

/-- Does l contain sub as a contiguous run. -/
def containsSub (sub : List Char) : List Char → Bool
  | [] => isPreOf sub []
  | c :: cs => isPreOf sub (c :: cs) || containsSub sub cs

/-- Python sub in s, substring containment. -/
def strContainsSub (s sub : String) : Bool :=
  containsSub sub.data s.data

/-- A row of the businesses table (all columns NOT NULL in the schema). -/
structure Business where
  business_id : Int
  owner_id : Int
  name : String
  street_address : String
  city : String
  state : String
  zip_code : Int
deriving Repr, DecidableEq

/-- A row of the reviews table; review_text is the one nullable column. -/
structure Review where
  review_id : Int
  user_id : Int
  business_id : Int
  stars : Int
  review_text : Option String
deriving Repr, DecidableEq

/-- Database state: the two tables in insertion order plus the
auto-increment counters assigned by MySQL to the primary keys. -/
structure DB where
  businesses : List Business
  reviews : List Review
  next_business_id : Int
  next_review_id : Int
deriving Repr, DecidableEq

/-- Exceptions that can be raised while a handler runs. -/
inductive PyError where
  | attributeError (msg : String)
  | nameError (name : String)
  | multipleResultsFound
deriving Repr, DecidableEq

/-- Outcome of a handler: an HTTP response, or an exception escaping it. -/
inductive HResult where
  | resp (status : Nat) (body : JDict)
  | exc (e : PyError)
deriving Repr, DecidableEq

/-- The HTTP status of a handler outcome, none when an exception escaped. -/
def HResult.status : HResult → Option Nat
  | .resp s _ => some s
  | .exc _ => none

/-- The response body of a handler outcome. -/
def HResult.body : HResult → Option JDict
  | .resp _ b => some b
  | .exc _ => none

/-- Constant BUSINESSES of main.py. -/
def BUSINESSES : String := "businesses"

/-- Constant BUSINESS_ID of main.py. -/
def BUSINESS_ID : String := "business_id"

/-- Constant REVIEWS of main.py. -/
def REVIEWS : String := "reviews"

/-- Constant REVIEW_ID of main.py. -/
def REVIEW_ID : String := "review_id"

/-- Constant POST_PUT_ERROR of main.py. -/
def POST_PUT_ERROR : JDict :=
  [("Error", JVal.str "The request body is missing at least one of the required attributes")]

/-- The 409 message of post_review. -/
def ALREADY_SUBMITTED_MESSAGE : String :=
  "You have already submitted a review for this business. You can update your previous review, or delete it and submit a new review"

/-- generate_self_url of main.py: url + "/" + str(id). -/
def generate_self_url (url : String) (id : Int) : String :=
  url ++ "/" ++ toString id

/-- generate_not_found_message of main.py. -/
def generate_not_found_message (business_or_review : String) (id_attribute : String) : JDict :=
  let kind := if business_or_review = "businesses" then "business" else "review"
  [("Error", JVal.str ("No " ++ kind ++ " with this " ++ id_attribute ++ " exists"))]

/-- JSON body of a POST or PUT request on businesses; a field is none when the
key is absent from the request JSON. -/
structure BusinessPayload where
  owner_id : Option Int
  name : Option String
  street_address : Option String
  city : Option String
  state : Option String
  zip_code : Option Int
deriving Repr, DecidableEq

/-- JSON body of a POST or PUT request on reviews; a field is none when the
key is absent from the request JSON. -/
structure ReviewPayload where
  user_id : Option Int
  business_id : Option Int
  stars : Option Int
  review_text : Option String
deriving Repr, DecidableEq

/-- validate_business_post_put of main.py applied to a business payload with
BUSINESSES_REQUIRED_ATTRIBUTES: every required key is present. -/
def validate_business_post_put (content : BusinessPayload) : Bool :=
  content.owner_id.isSome && content.name.isSome && content.street_address.isSome &&
  content.city.isSome && content.state.isSome && content.zip_code.isSome

/-- validate_business_post_put of main.py applied to a review payload with
REVIEWS_REQUIRED_ATTRIBUTES: user_id, business_id and stars are present. -/
def validate_review_post (content : ReviewPayload) : Bool :=
  content.user_id.isSome && content.business_id.isSome && content.stars.isSome

/-- SQLAlchemy Result.one_or_none: none on zero rows, the row on one row,
raises MultipleResultsFound on two or more rows. -/
def one_or_none {α : Type} (rows : List α) : Except PyError (Option α) :=
  match rows with
  | [] => Except.ok none
  | [r] => Except.ok (some r)
  | _ :: _ :: _ => Except.error PyError.multipleResultsFound

/-- SELECT ... FROM businesses WHERE business_id = id. -/
def selectBusinessById (db : DB) (id : Int) : List Business :=
  db.businesses.filter (fun b => b.business_id == id)

/-- SELECT * FROM reviews WHERE review_id = id. -/
def selectReviewById (db : DB) (id : Int) : List Review :=
  db.reviews.filter (fun r => r.review_id == id)

/-- SELECT * FROM reviews WHERE business_id = id, in table order. -/
def selectReviewsByBusinessId (db : DB) (id : Int) : List Review :=
  db.reviews.filter (fun r => r.business_id == id)

/-- row._asdict() for a SELECT * row of businesses, in column order. -/
def business_asdict (b : Business) : JDict :=
  [("business_id", JVal.num b.business_id),
   ("owner_id", JVal.num b.owner_id),
   ("name", JVal.str b.name),
   ("street_address", JVal.str b.street_address),
   ("city", JVal.str b.city),
   ("state", JVal.str b.state),
   ("zip_code", JVal.num b.zip_code)]

/-- row._asdict() for a SELECT * row of reviews, in column order. -/
def review_asdict (r : Review) : JDict :=
  [("review_id", JVal.num r.review_id),
   ("user_id", JVal.num r.user_id),
   ("business_id", JVal.num r.business_id),
   ("stars", JVal.num r.stars),
   ("review_text", match r.review_text with | some t => JVal.str t | none => JVal.null)]

/-- Insertion of a row into a list kept sorted by business_id. -/
def insertByBusinessId (b : Business) : List Business → List Business
  | [] => [b]
  | c :: cs =>
    if b.business_id ≤ c.business_id then b :: c :: cs
    else c :: insertByBusinessId b cs

/-- ORDER BY business_id over the businesses table. -/
def sqlOrderByBusinessId : List Business → List Business
  | [] => []
  | b :: bs => insertByBusinessId b (sqlOrderByBusinessId bs)

/-- Response dictionary of GET /businesses: entries plus an optional next link. -/
structure BusinessListResponse where
  entries : List JDict
  next : Option String
deriving Repr, DecidableEq

/-- get_businesses of main.py (lines 132-165).  req_url is request.url and
base_url is request.base_url.  offset and limit start at 0 and 3.  The code
sets url = request.url.split("/"), a Python list; when the last segment is not
"businesses" it runs url = url[11:] followed by url.split("&"), and a list has
no split method, so that branch raises AttributeError unconditionally.
Otherwise rows are fetched with ORDER BY business_id LIMIT limit OFFSET
offset; the loop variable business holds the dict of the last row appended;
when no row was returned the name business is unbound and the next-link test
len(business) == limit raises NameError; when rows exist that test compares
the key count of the last row dict (eight keys) with limit. -/
def get_businesses (req_url base_url : String) (table : List Business) :
    Except PyError BusinessListResponse :=
  let offset : Nat := 0
  let limit : Nat := 3
  let url := pySplit req_url '/'
  if url.getLast? ≠ some BUSINESSES then
    Except.error (PyError.attributeError "list object has no attribute split")
  else
    let rows := ((sqlOrderByBusinessId table).drop offset).take limit
    let entries := rows.map (fun b =>
      business_asdict b ++ [("self", JVal.str (generate_self_url base_url b.business_id))])
    match entries.getLast? with
    | none => Except.error (PyError.nameError "business")
    | some business =>
      if business.length == limit then
        let offset := offset + limit
        let param_str := "?offset=" ++ toString offset ++ "&limit=" ++ toString limit
        let next_url := pySplit req_url '?'
        Except.ok { entries := entries,
                    next := some (String.join (next_url.dropLast ++ [param_str])) }
      else
        Except.ok { entries := entries, next := none }

/-- post_business of main.py (lines 96-128).  The match on the six required
fields is validate_business_post_put with BUSINESSES_REQUIRED_ATTRIBUTES
followed by the content[...] accesses; the INSERT appends a row carrying the
auto-increment id and SELECT last_insert_id() returns that id. -/
def post_business (content : BusinessPayload) (base_url : String) (db : DB) :
    DB × HResult :=
  match content.owner_id, content.name, content.street_address,
        content.city, content.state, content.zip_code with
  | some owner_id, some name, some street_address, some city, some state, some zip_code =>
    let business_id := db.next_business_id
    let db' : DB := { db with
      businesses := db.businesses ++
        [{ business_id := business_id, owner_id := owner_id, name := name,
           street_address := street_address, city := city, state := state,
           zip_code := zip_code }],
      next_business_id := db.next_business_id + 1 }
    (db', HResult.resp 201
      [("id", JVal.num business_id),
       ("owner_id", JVal.num owner_id),
       ("name", JVal.str name),
       ("street_address", JVal.str street_address),
       ("city", JVal.str city),
       ("state", JVal.str state),
       ("zip_code", JVal.num zip_code),
       ("self", JVal.str (generate_self_url base_url business_id))])
  | _, _, _, _, _, _ => (db, HResult.resp 400 POST_PUT_ERROR)

/-- put_business of main.py (lines 196-236): payload validation first, then
the existence SELECT through one_or_none, then the UPDATE of all six
non-key columns of the matching row; the response body carries self =
request.base_url. -/
def put_business (id : Int) (content : BusinessPayload) (base_url : String) (db : DB) :
    DB × HResult :=
  match content.owner_id, content.name, content.street_address,
        content.city, content.state, content.zip_code with
  | some owner_id, some name, some street_address, some city, some state, some zip_code =>
    match one_or_none (selectBusinessById db id) with
    | Except.error e => (db, HResult.exc e)
    | Except.ok none => (db, HResult.resp 404 (generate_not_found_message BUSINESSES BUSINESS_ID))
    | Except.ok (some _) =>
      let db' : DB := { db with
        businesses := db.businesses.map (fun b =>
          if b.business_id == id then
            { b with owner_id := owner_id, name := name, street_address := street_address,
                     city := city, state := state, zip_code := zip_code }
          else b) }
      (db', HResult.resp 200
        [("id", JVal.num id),
         ("owner_id", JVal.num owner_id),
         ("name", JVal.str name),
         ("street_address", JVal.str street_address),
         ("city", JVal.str city),
         ("state", JVal.str state),
         ("zip_code", JVal.num zip_code),
         ("self", JVal.str base_url)])
  | _, _, _, _, _, _ => (db, HResult.resp 400 POST_PUT_ERROR)

/-- delete_business of main.py (lines 239-258): existence SELECT through
one_or_none, then DELETE of the row; the ON DELETE CASCADE foreign key of the
reviews table removes every review of the business. -/
def delete_business (id : Int) (db : DB) : DB × HResult :=
  match one_or_none (selectBusinessById db id) with
  | Except.error e => (db, HResult.exc e)
  | Except.ok none => (db, HResult.resp 404 (generate_not_found_message BUSINESSES BUSINESS_ID))
  | Except.ok (some _) =>
    ({ db with
       businesses := db.businesses.filter (fun b => !(b.business_id == id)),
       reviews := db.reviews.filter (fun r => !(r.business_id == id)) },
     HResult.resp 204 [])

/-- get_owners_businesses of main.py (lines 261-274): every row of SELECT *
FROM businesses WHERE owner_id = id, each dict extended with self =
generate_self_url(request.base_url, id), where id is the owner id of the
path, not the business id of the row. -/
def get_owners_businesses (id : Int) (base_url : String) (table : List Business) :
    List JDict :=
  (table.filter (fun b => b.owner_id == id)).map (fun b =>
    business_asdict b ++ [("self", JVal.str (generate_self_url base_url id))])

/-- post_review of main.py (lines 277-341): validation of the three required
fields, existence SELECT for the business through one_or_none, duplicate scan
SELECT * FROM reviews WHERE business_id = id through one_or_none (so zero
rows fall through, one row is compared on user_id, and two or more rows raise
MultipleResultsFound, caught by the try/except as the generic 500), then the
INSERT with or without review_text and SELECT last_insert_id(). -/
def post_review (content : ReviewPayload) (base_url : String) (db : DB) :
    DB × HResult :=
  match content.user_id, content.business_id, content.stars with
  | some user_id, some business_id, some stars =>
    let has_review_text := content.review_text.isSome
    match one_or_none (selectBusinessById db business_id) with
    | Except.error _ => (db, HResult.resp 500 [("Error", JVal.str "Unable to create review")])
    | Except.ok none =>
        (db, HResult.resp 404 (generate_not_found_message BUSINESSES BUSINESS_ID))
    | Except.ok (some _) =>
      let review_id := db.next_review_id
      let new_review : Review :=
        { review_id := review_id, user_id := user_id, business_id := business_id,
          stars := stars,
          review_text := if has_review_text then content.review_text else none }
      let body_201 : JDict :=
        [("id", JVal.num review_id),
         ("user_id", JVal.num user_id),
         ("business_id", JVal.num business_id),
         ("stars", JVal.num stars)] ++
        (if has_review_text then
          [("review_text", match content.review_text with
                           | some t => JVal.str t
                           | none => JVal.null)]
         else []) ++
        [("self", JVal.str (generate_self_url base_url review_id))]
      let inserted : DB × HResult :=
        ({ db with reviews := db.reviews ++ [new_review],
                   next_review_id := db.next_review_id + 1 },
         HResult.resp 201 body_201)
      match one_or_none (selectReviewsByBusinessId db business_id) with
      | Except.error _ => (db, HResult.resp 500 [("Error", JVal.str "Unable to create review")])
      | Except.ok (some review) =>
        if review.user_id == user_id then
          (db, HResult.resp 409 [("Error", JVal.str ALREADY_SUBMITTED_MESSAGE)])
        else inserted
      | Except.ok none => inserted
  | _, _, _ => (db, HResult.resp 400 POST_PUT_ERROR)

/-- put_review of main.py (lines 360-407): stars must be present, the review
is fetched through one_or_none, the UPDATE sets stars and, when supplied,
review_text; the response body is the fetched row dict with stars
overwritten, business set to generate_self_url(request.base_url, business_id),
business_id deleted, review_text overwritten when supplied, and self set to
generate_self_url(request.base_url, id). -/
def put_review (id : Int) (content : ReviewPayload) (base_url : String) (db : DB) :
    DB × HResult :=
  match content.stars with
  | none => (db, HResult.resp 400 POST_PUT_ERROR)
  | some stars =>
    let has_review_text := content.review_text.isSome
    match one_or_none (selectReviewById db id) with
    | Except.error e => (db, HResult.exc e)
    | Except.ok none => (db, HResult.resp 404 (generate_not_found_message REVIEWS REVIEW_ID))
    | Except.ok (some row) =>
      let db' : DB := { db with
        reviews := db.reviews.map (fun r =>
          if r.review_id == id then
            if has_review_text then
              { r with stars := stars, review_text := content.review_text }
            else
              { r with stars := stars }
          else r) }
      let d0 := review_asdict row
      let d1 := dictSet d0 "stars" (JVal.num stars)
      let d2 := dictSet d1 "business" (JVal.str (generate_self_url base_url row.business_id))
      let d3 := dictDel d2 "business_id"
      let d4 :=
        match content.review_text with
        | some t => if has_review_text then dictSet d3 "review_text" (JVal.str t) else d3
        | none => d3
      let d5 := dictSet d4 "self" (JVal.str (generate_self_url base_url id))
      (db', HResult.resp 200 d5)

/-- delete_review of main.py (lines 410-429): existence SELECT through
one_or_none, then DELETE of the row. -/
def delete_review (id : Int) (db : DB) : DB × HResult :=
  match one_or_none (selectReviewById db id) with
  | Except.error e => (db, HResult.exc e)
  | Except.ok none => (db, HResult.resp 404 (generate_not_found_message REVIEWS REVIEW_ID))
  | Except.ok (some _) =>
    ({ db with reviews := db.reviews.filter (fun r => !(r.review_id == id)) },
     HResult.resp 204 [])

/-! Concrete fixtures used by the evaluation theorems and witnesses. -/

/-- A sample business row with the given id. -/
def sampleBusiness (i : Int) : Business :=
  { business_id := i, owner_id := 1, name := "Biz", street_address := "1 Main",
    city := "X", state := "CA", zip_code := 90001 }

/-- A sample review row. -/
def sampleReview (rid uid bid : Int) : Review :=
  { review_id := rid, user_id := uid, business_id := bid, stars := 4, review_text := none }

/-- The empty database. -/
def emptyDB : DB := { businesses := [], reviews := [], next_business_id := 1, next_review_id := 1 }

/-- A database holding business 5 and no reviews. -/
def dbBusinessFive : DB :=
  { businesses := [sampleBusiness 5], reviews := [], next_business_id := 6, next_review_id := 1 }

/-- A database where business 5 already has reviews by two distinct users. -/
def dbTwoReviewers : DB :=
  { businesses := [sampleBusiness 5],
    reviews := [sampleReview 1 2 5, sampleReview 2 3 5],
    next_business_id := 6, next_review_id := 3 }

/-- A database holding business 3 and its review 7 by user 1. -/
def dbReviewSeven : DB :=
  { businesses := [sampleBusiness 3],
    reviews := [{ review_id := 7, user_id := 1, business_id := 3, stars := 5, review_text := none }],
    next_business_id := 4, next_review_id := 8 }

/-- A review payload with all keys absent but stars. -/
def starsOnlyPayload : ReviewPayload :=
  { user_id := none, business_id := none, stars := some 2, review_text := none }

/-- A review payload by user 1 for business 5 with stars 4. -/
def reviewPayloadUserOne : ReviewPayload :=
  { user_id := some 1, business_id := some 5, stars := some 4, review_text := none }

/-- A review payload by user 2 for business 5. -/
def reviewPayloadUserTwo : ReviewPayload :=
  { user_id := some 2, business_id := some 5, stars := some 1, review_text := none }

/-- A business payload with every key absent. -/
def emptyBusinessPayload : BusinessPayload :=
  { owner_id := none, name := none, street_address := none, city := none,
    state := none, zip_code := none }

/-- A business payload with every required key present. -/
def fullBusinessPayload : BusinessPayload :=
  { owner_id := some 1, name := some "A", street_address := some "1 Main",
    city := some "X", state := some "CA", zip_code := some 90001 }

/-! Helper lemmas about the embedding. -/

theorem one_or_none_eq_ok_none_iff {α : Type} (l : List α) :
    one_or_none l = Except.ok none ↔ l = [] := by
  cases l with
  | nil => simp [one_or_none]
  | cons a t => cases t <;> simp [one_or_none]

theorem one_or_none_eq_ok_some_iff {α : Type} (l : List α) (r : α) :
    one_or_none l = Except.ok (some r) ↔ l = [r] := by
  cases l with
  | nil => simp [one_or_none]
  | cons a t => cases t <;> simp [one_or_none]

/-! Theorems settling the claims. -/

/-- Claim C1, behaviour at the failing input: with three businesses in the
table and the default window (offset 0, limit 3), GET /businesses returns a
page of exactly limit entries and still omits the next key, because the code
compares the key count of the last row dict (eight) with limit instead of the
number of returned rows. -/
theorem get_businesses_full_page_without_next :
    (get_businesses "http://h/businesses" "http://h/businesses"
        [sampleBusiness 1, sampleBusiness 2, sampleBusiness 3]).toOption.map
      (fun r => (r.entries.length, r.next)) = some (3, none) := by
  decide

/-- Claim C7, behaviour at the failing input: a GET /businesses request whose
URL carries a query-like trailing segment raises AttributeError before any
offset or limit is parsed, because the handler calls split on the Python list
produced by request.url.split. -/
theorem get_businesses_query_attribute_error :
    get_businesses "http://h/businesses?offset=2&limit=2" "http://h/businesses"
        [sampleBusiness 1, sampleBusiness 2, sampleBusiness 3]
      = Except.error (PyError.attributeError "list object has no attribute split") := rfl

/-- Claim C10: whenever the selected page of GET /businesses contains zero
rows, the handler raises an unhandled exception instead of answering 200 with
an empty entries list. -/
theorem get_businesses_empty_page_raises (req_url base_url : String) (table : List Business)
    (h : ((sqlOrderByBusinessId table).drop 0).take 3 = []) :
    ∃ e, get_businesses req_url base_url table = Except.error e := by
  by_cases hc : (pySplit req_url '/').getLast? ≠ some BUSINESSES
  · exact ⟨PyError.attributeError "list object has no attribute split",
      by simp [get_businesses, hc]⟩
  · have h' : List.take 3 (sqlOrderByBusinessId table) = [] := by simpa using h
    exact ⟨PyError.nameError "business", by simp [get_businesses, hc, ← List.map_take, h']⟩

/-- Witness for C10 at the empty table. -/
theorem get_businesses_empty_page_raises_witness :
    ∃ e, get_businesses "http://h/businesses" "http://h/businesses" [] = Except.error e :=
  get_businesses_empty_page_raises "http://h/businesses" "http://h/businesses" [] rfl

/-- Claim C3, counterexample: with no business of id 1 in the database, a PUT
whose payload misses every required attribute is answered 400, not the 404
the claim promises for every payload. -/
theorem put_business_missing_id_invalid_payload_400 :
    selectBusinessById emptyDB 1 = [] ∧
    (put_business 1 emptyBusinessPayload "http://h/businesses/1" emptyDB).2.status = some 400 ∧
    some 400 ≠ some 404 := by
  refine ⟨rfl, rfl, by decide⟩

/-- Claim C3 as amended: a PUT on a nonexistent business id is answered 404
whenever the payload carries all required attributes, and the database is
left unchanged. -/
theorem put_business_not_found_404
    (db : DB) (id : Int) (content : BusinessPayload) (base_url : String)
    (hv : validate_business_post_put content = true)
    (h : selectBusinessById db id = []) :
    put_business id content base_url db
      = (db, HResult.resp 404 (generate_not_found_message BUSINESSES BUSINESS_ID)) := by
  rcases content with ⟨o, n, sa, ci, st, z⟩
  simp only [validate_business_post_put, Bool.and_eq_true, Option.isSome_iff_exists] at hv
  obtain ⟨⟨⟨⟨⟨⟨xo, ho⟩, xn, hn⟩, xsa, hsa⟩, xci, hci⟩, xst, hst⟩, xz, hz⟩ := hv
  subst ho hn hsa hci hst hz
  simp [put_business, h, one_or_none]

/-- Witness for the amended C3. -/
theorem put_business_not_found_404_witness :
    put_business 1 fullBusinessPayload "http://h/businesses/1" emptyDB
      = (emptyDB, HResult.resp 404 (generate_not_found_message BUSINESSES BUSINESS_ID)) :=
  put_business_not_found_404 emptyDB 1 fullBusinessPayload "http://h/businesses/1" rfl rfl

/-- Claim C4: a POST /reviews whose payload has user_id, business_id and
stars but names a business absent from the businesses table is answered 404
and the database, in particular the reviews table, is unchanged. -/
theorem post_review_business_not_found_404
    (db : DB) (content : ReviewPayload) (base_url : String) (uid bid s : Int)
    (hu : content.user_id = some uid) (hb : content.business_id = some bid)
    (hs : content.stars = some s)
    (h : selectBusinessById db bid = []) :
    post_review content base_url db
      = (db, HResult.resp 404 (generate_not_found_message BUSINESSES BUSINESS_ID)) := by
  simp [post_review, hu, hb, hs, h, one_or_none]

/-- Witness for C4. -/
theorem post_review_business_not_found_404_witness :
    post_review reviewPayloadUserOne "http://h/reviews" emptyDB
      = (emptyDB, HResult.resp 404 (generate_not_found_message BUSINESSES BUSINESS_ID)) :=
  post_review_business_not_found_404 emptyDB reviewPayloadUserOne "http://h/reviews" 1 5 4
    rfl rfl rfl rfl

/-- A 400 outcome of post_business leaves the database unchanged. -/
theorem post_business_error_frame (content : BusinessPayload) (u : String) (db : DB)
    (h : (post_business content u db).2.status = some 400 ∨
         (post_business content u db).2.status = some 404) :
    (post_business content u db).1 = db := by
  rcases content with ⟨o, n, sa, ci, st, z⟩
  cases o <;> cases n <;> cases sa <;> cases ci <;> cases st <;> cases z <;>
    simp_all [post_business, HResult.status]

/-- A 400 or 404 outcome of put_business leaves the database unchanged. -/
theorem put_business_error_frame (id : Int) (content : BusinessPayload) (u : String) (db : DB)
    (h : (put_business id content u db).2.status = some 400 ∨
         (put_business id content u db).2.status = some 404) :
    (put_business id content u db).1 = db := by
  rcases content with ⟨o, n, sa, ci, st, z⟩
  rcases hoo : one_or_none (selectBusinessById db id) with e | (_ | b) <;>
    cases o <;> cases n <;> cases sa <;> cases ci <;> cases st <;> cases z <;>
      simp_all [put_business, HResult.status]

/-- A 400 or 404 outcome of delete_business leaves the database unchanged. -/
theorem delete_business_error_frame (id : Int) (db : DB)
    (h : (delete_business id db).2.status = some 400 ∨
         (delete_business id db).2.status = some 404) :
    (delete_business id db).1 = db := by
  rcases hoo : one_or_none (selectBusinessById db id) with e | (_ | b) <;>
    simp_all [delete_business, HResult.status]

/-- A 400 or 404 outcome of post_review leaves the database unchanged. -/
theorem post_review_error_frame (content : ReviewPayload) (u : String) (db : DB)
    (h : (post_review content u db).2.status = some 400 ∨
         (post_review content u db).2.status = some 404) :
    (post_review content u db).1 = db := by
  rcases content with ⟨cu, cb, cs, crt⟩
  cases cu with
  | none => simp_all [post_review]
  | some uid =>
    cases cb with
    | none => simp_all [post_review]
    | some bid =>
      cases cs with
      | none => simp_all [post_review]
      | some s =>
        rcases hb : one_or_none (selectBusinessById db bid) with e | (_ | b)
        · simp_all [post_review, HResult.status]
        · simp_all [post_review, HResult.status]
        · rcases hr : one_or_none (selectReviewsByBusinessId db bid) with e2 | (_ | r)
          · simp_all [post_review, HResult.status]
          · simp_all [post_review, HResult.status]
          · by_cases hu : (r.user_id == uid) = true <;>
              simp_all [post_review, HResult.status]

/-- A 400 or 404 outcome of put_review leaves the database unchanged. -/
theorem put_review_error_frame (id : Int) (content : ReviewPayload) (u : String) (db : DB)
    (h : (put_review id content u db).2.status = some 400 ∨
         (put_review id content u db).2.status = some 404) :
    (put_review id content u db).1 = db := by
  rcases content with ⟨cu, cb, cs, crt⟩
  cases cs with
  | none => simp_all [put_review]
  | some s =>
    rcases hr : one_or_none (selectReviewById db id) with e | (_ | row) <;>
      simp_all [put_review, HResult.status]

/-- A 400 or 404 outcome of delete_review leaves the database unchanged. -/
theorem delete_review_error_frame (id : Int) (db : DB)
    (h : (delete_review id db).2.status = some 400 ∨
         (delete_review id db).2.status = some 404) :
    (delete_review id db).1 = db := by
  rcases hoo : one_or_none (selectReviewById db id) with e | (_ | r) <;>
    simp_all [delete_review, HResult.status]

/-- Claim C5: every request of the six mutating handlers that terminates with
a 400 or a 404 response leaves the database state unchanged, so no INSERT,
UPDATE or DELETE has taken effect on those paths. -/
theorem error_responses_preserve_db
    (db : DB) (id : Int) (bc : BusinessPayload) (rc : ReviewPayload) (u : String) :
    (((post_business bc u db).2.status = some 400 ∨
        (post_business bc u db).2.status = some 404) → (post_business bc u db).1 = db) ∧
    (((put_business id bc u db).2.status = some 400 ∨
        (put_business id bc u db).2.status = some 404) → (put_business id bc u db).1 = db) ∧
    (((delete_business id db).2.status = some 400 ∨
        (delete_business id db).2.status = some 404) → (delete_business id db).1 = db) ∧
    (((post_review rc u db).2.status = some 400 ∨
        (post_review rc u db).2.status = some 404) → (post_review rc u db).1 = db) ∧
    (((put_review id rc u db).2.status = some 400 ∨
        (put_review id rc u db).2.status = some 404) → (put_review id rc u db).1 = db) ∧
    (((delete_review id db).2.status = some 400 ∨
        (delete_review id db).2.status = some 404) → (delete_review id db).1 = db) :=
  ⟨post_business_error_frame bc u db, put_business_error_frame id bc u db,
   delete_business_error_frame id db, post_review_error_frame rc u db,
   put_review_error_frame id rc u db, delete_review_error_frame id db⟩

/-- Witness for C5: a PUT on a business id absent from an empty database is
answered 404 and indeed leaves the database unchanged. -/
theorem error_responses_preserve_db_witness :
    (put_business 1 fullBusinessPayload "http://h/businesses/1" emptyDB).1 = emptyDB :=
  (error_responses_preserve_db emptyDB 1 fullBusinessPayload reviewPayloadUserOne
      "http://h/businesses/1").2.1 (Or.inr rfl)

/-- Claim C6, counterexample: review 7 of business 3, updated through PUT
/reviews/7, is returned with business link http://h/reviews/7/3 — a URL that
does not even contain the businesses path segment — and with self link
http://h/reviews/7/7, which is not the review URL http://h/reviews/7. -/
theorem put_review_links_counterexample :
    ((put_review 7 starsOnlyPayload "http://h/reviews/7" dbReviewSeven).2.body.map
        (fun b => (dictGet b "business", dictGet b "self")))
      = some (some (JVal.str "http://h/reviews/7/3"), some (JVal.str "http://h/reviews/7/7")) ∧
    strContainsSub "http://h/reviews/7/3" "businesses" = false ∧
    "http://h/reviews/7/7" ≠ "http://h/reviews/7" := by
  refine ⟨by decide, by decide, by decide⟩

/-- The response body of a successful put_review, computed once: the fetched
row with stars overwritten, business_id deleted, and the business and self
links both synthesized by appending an id to the request base URL. -/
theorem put_review_body_eq
    (db : DB) (id : Int) (content : ReviewPayload) (base_url : String) (s : Int) (row : Review)
    (hs : content.stars = some s)
    (hrow : selectReviewById db id = [row]) :
    (put_review id content base_url db).2.body = some
      [("review_id", JVal.num row.review_id),
       ("user_id", JVal.num row.user_id),
       ("stars", JVal.num s),
       ("review_text",
         match content.review_text with
         | some t => JVal.str t
         | none =>
           match row.review_text with
           | some t0 => JVal.str t0
           | none => JVal.null),
       ("business", JVal.str (generate_self_url base_url row.business_id)),
       ("self", JVal.str (generate_self_url base_url id))] := by
  rcases row with ⟨rid, ruid, rbid, rstars, rtext⟩
  cases hrt : content.review_text with
  | none =>
    cases rtext <;>
      simp [put_review, hs, hrow, one_or_none, HResult.body, hrt, review_asdict,
            dictSet, dictDel]
  | some t =>
    cases rtext <;>
      simp [put_review, hs, hrow, one_or_none, HResult.body, hrt, review_asdict,
            dictSet, dictDel]

/-- Claim C6 as amended: a successful PUT /reviews/id answers 200 with a body
in which business_id is gone, the business key holds the request base URL
(the review URL) with the business id appended, and the self key holds the
request base URL with the review id appended again. -/
theorem put_review_links_amended
    (db : DB) (id : Int) (content : ReviewPayload) (base_url : String) (s : Int) (row : Review)
    (hs : content.stars = some s)
    (hrow : selectReviewById db id = [row]) :
    (put_review id content base_url db).2.status = some 200 ∧
    ∃ body, (put_review id content base_url db).2.body = some body ∧
      dictGet body "business" = some (JVal.str (generate_self_url base_url row.business_id)) ∧
      dictGet body "self" = some (JVal.str (generate_self_url base_url id)) ∧
      dictGet body "business_id" = none := by
  refine ⟨by simp [put_review, hs, hrow, one_or_none, HResult.status], ?_⟩
  refine ⟨_, put_review_body_eq db id content base_url s row hs hrow, ?_, ?_, ?_⟩ <;>
    simp [dictGet, List.find?]

/-- Witness for the amended C6. -/
theorem put_review_links_amended_witness :
    (put_review 7 starsOnlyPayload "http://h/reviews/7" dbReviewSeven).2.status = some 200 ∧
    ∃ body, (put_review 7 starsOnlyPayload "http://h/reviews/7" dbReviewSeven).2.body = some body ∧
      dictGet body "business" = some (JVal.str (generate_self_url "http://h/reviews/7" 3)) ∧
      dictGet body "self" = some (JVal.str (generate_self_url "http://h/reviews/7" 7)) ∧
      dictGet body "business_id" = none :=
  put_review_links_amended dbReviewSeven 7 starsOnlyPayload "http://h/reviews/7" 2
    { review_id := 7, user_id := 1, business_id := 3, stars := 5, review_text := none } rfl rfl

/-- Claim C9: a successful PUT /reviews/id updates exactly the stars column
of the rows matching the id when review_text is absent from the payload, and
exactly the stars and review_text columns when it is present; user_id and
business_id, and every other row, are unchanged. -/
theorem put_review_frame
    (db : DB) (id : Int) (content : ReviewPayload) (base_url : String) (s : Int) (row : Review)
    (hs : content.stars = some s)
    (hrow : selectReviewById db id = [row]) :
    (content.review_text = none →
      (put_review id content base_url db).1.reviews =
        db.reviews.map (fun q => if q.review_id == id then { q with stars := s } else q)) ∧
    (∀ t, content.review_text = some t →
      (put_review id content base_url db).1.reviews =
        db.reviews.map (fun q =>
          if q.review_id == id then { q with stars := s, review_text := some t } else q)) := by
  constructor
  · intro ht
    simp [put_review, hs, hrow, one_or_none, ht]
  · intro t ht
    simp [put_review, hs, hrow, one_or_none, ht]

/-- Witness for C9 at a concrete database. -/
theorem put_review_frame_witness :
    (put_review 7 starsOnlyPayload "http://h/reviews/7" dbReviewSeven).1.reviews
      = dbReviewSeven.reviews.map
          (fun q => if q.review_id == 7 then { q with stars := 2 } else q) :=
  (put_review_frame dbReviewSeven 7 starsOnlyPayload "http://h/reviews/7" 2
      { review_id := 7, user_id := 1, business_id := 3, stars := 5, review_text := none }
      rfl rfl).1 rfl

/-- Claim C2, counterexample: business 5 has two reviews, the first by user 2;
when user 2 posts again, the claim predicts 409, but the duplicate scan runs
one_or_none over both rows, MultipleResultsFound is raised, and the
try/except turns it into the generic 500. -/
theorem post_review_multiple_reviews_500 :
    (selectReviewsByBusinessId dbTwoReviewers 5).head? = some (sampleReview 1 2 5) ∧
    (sampleReview 1 2 5).user_id = 2 ∧
    reviewPayloadUserTwo.user_id = some 2 ∧
    (post_review reviewPayloadUserTwo "http://h/reviews" dbTwoReviewers).2.status = some 500 ∧
    (post_review reviewPayloadUserTwo "http://h/reviews" dbTwoReviewers).2.status ≠ some 409 := by
  refine ⟨rfl, rfl, rfl, rfl, by decide⟩

/-- Claim C2 as amended: for a valid payload naming an existing business, the
request is answered 409 if and only if the business has exactly one review
and its user_id equals the submitted one (with two or more reviews the scan
raises MultipleResultsFound and the handler answers 500); in particular, on a
business with no reviews a first post yields 201 and an immediate second post
by the same user yields 409 with a message containing already submitted. -/
theorem post_review_duplicate_check_amended
    (db : DB) (content : ReviewPayload) (u : String) (uid bid s : Int) (b : Business)
    (hu : content.user_id = some uid) (hb : content.business_id = some bid)
    (hs : content.stars = some s)
    (hbus : selectBusinessById db bid = [b]) :
    ((post_review content u db).2.status = some 409 ↔
      (∃ r, selectReviewsByBusinessId db bid = [r] ∧ r.user_id = uid)) ∧
    (selectReviewsByBusinessId db bid = [] →
      (post_review content u db).2.status = some 201 ∧
      (post_review content u (post_review content u db).1).2.status = some 409 ∧
      (post_review content u (post_review content u db).1).2.body
        = some [("Error", JVal.str ALREADY_SUBMITTED_MESSAGE)] ∧
      strContainsSub ALREADY_SUBMITTED_MESSAGE "already submitted" = true) := by
  constructor
  · rcases hl : selectReviewsByBusinessId db bid with _ | ⟨r, _ | ⟨r2, t⟩⟩
    · simp [post_review, hu, hb, hs, hbus, one_or_none, hl, HResult.status]
    · by_cases hru : r.user_id = uid
      · constructor
        · intro _
          exact ⟨r, rfl, hru⟩
        · intro _
          simp [post_review, hu, hb, hs, hbus, one_or_none, hl, hru, HResult.status]
      · constructor
        · intro h409
          have hfalse : (r.user_id == uid) = false := by simp [hru]
          simp [post_review, hu, hb, hs, hbus, one_or_none, hl, hfalse, HResult.status] at h409
        · rintro ⟨r', hr', hru'⟩
          obtain rfl : r = r' := by simpa using hr'
          exact absurd hru' hru
    · constructor
      · intro h409
        simp [post_review, hu, hb, hs, hbus, one_or_none, hl, HResult.status] at h409
      · rintro ⟨r', hr', hru'⟩
        simp at hr'
  · intro hl
    have hbus' : List.filter (fun b0 => b0.business_id == bid) db.businesses = [b] := hbus
    have hl' : List.filter (fun r => r.business_id == bid) db.reviews = [] := hl
    refine ⟨by simp [post_review, hu, hb, hs, hbus, one_or_none, hl, HResult.status], ?_⟩
    have hdb1 : (post_review content u db).1
        = { db with
            reviews := db.reviews ++
              [{ review_id := db.next_review_id, user_id := uid, business_id := bid,
                 stars := s,
                 review_text := if content.review_text.isSome then content.review_text
                                else none }],
            next_review_id := db.next_review_id + 1 } := by
      simp [post_review, hu, hb, hs, hbus, one_or_none, hl]
    rw [hdb1]
    refine ⟨?_, ?_, by decide⟩ <;>
      simp [post_review, hu, hb, hs, selectBusinessById, selectReviewsByBusinessId,
            one_or_none, hbus', hl', List.filter_append, HResult.status, HResult.body]

/-- Witness for the amended C2: on a database where business 5 has no
reviews, user 1 posting twice gets 201 then 409 with the duplicate message. -/
theorem post_review_duplicate_check_amended_witness :
    (post_review reviewPayloadUserOne "http://h/reviews" dbBusinessFive).2.status = some 201 ∧
    (post_review reviewPayloadUserOne "http://h/reviews"
        (post_review reviewPayloadUserOne "http://h/reviews" dbBusinessFive).1).2.status
      = some 409 ∧
    (post_review reviewPayloadUserOne "http://h/reviews"
        (post_review reviewPayloadUserOne "http://h/reviews" dbBusinessFive).1).2.body
      = some [("Error", JVal.str ALREADY_SUBMITTED_MESSAGE)] ∧
    strContainsSub ALREADY_SUBMITTED_MESSAGE "already submitted" = true :=
  (post_review_duplicate_check_amended dbBusinessFive reviewPayloadUserOne "http://h/reviews"
      1 5 4 (sampleBusiness 5) rfl rfl rfl rfl).2 rfl

/-- Claim C8: GET /owners/id/businesses lists exactly the businesses whose
owner_id equals the path parameter, in table order and unpaginated, and every
entry carries a self link made of the request base URL with the owner id —
not the business id — appended. -/
theorem get_owners_businesses_spec (table : List Business) (id : Int) (base_url : String) :
    (get_owners_businesses id base_url table).map (fun d => dictGet d "business_id")
      = (table.filter (fun b => b.owner_id == id)).map (fun b => some (JVal.num b.business_id)) ∧
    ∀ d ∈ get_owners_businesses id base_url table,
      dictGet d "self" = some (JVal.str (generate_self_url base_url id)) := by
  constructor
  · simp [get_owners_businesses, dictGet, business_asdict, List.find?]
  · intro d hd
    simp only [get_owners_businesses, List.mem_map] at hd
    obtain ⟨b, _, rfl⟩ := hd
    simp [dictGet, business_asdict, List.find?]

/-- Witness for C8: the one business of owner 1 is listed with a self link
ending in the owner id. -/
theorem get_owners_businesses_spec_witness :
    dictGet (business_asdict (sampleBusiness 3) ++
        [("self", JVal.str (generate_self_url "http://h/owners/1/businesses" 1))]) "self"
      = some (JVal.str (generate_self_url "http://h/owners/1/businesses" 1)) :=
  (get_owners_businesses_spec [sampleBusiness 3] 1 "http://h/owners/1/businesses").2
    (business_asdict (sampleBusiness 3) ++
      [("self", JVal.str (generate_self_url "http://h/owners/1/businesses" 1))])
    (by simp [get_owners_businesses, sampleBusiness])
